import Mathlib

/-!
Verification of the 2026 U.S. House forecasting engine
(forecast_all_2026_races.py), shallowly embedded in Lean.

Modelling conventions:
* Python floats are modelled as exact rationals.
* round(x, k) is modelled as round-half-to-even on rationals (rhe),
  matching the tie-breaking rule of the Python builtin round.
* A raised Python exception (ValueError from float(...) on a malformed
  string, ZeroDivisionError from dividing by a zero trial count) is
  modelled as a none result.
* The unseeded random.gauss(0, rmse) draws are modelled as explicit
  lists of error values supplied to the simulation functions: one list
  per race for simulate_race, one list per chamber trial for
  simulate_all_races, and an indexed family (one list per district) for
  run_forecast.  The engine itself is deterministic in those draws.
* np.std (a real square root) has no exact rational value, so the
  margin_std output of simulate_race and the d_std, d_median, d_min,
  d_max outputs of simulate_all_races are omitted from the embedding.
  No claim verified here depends on them.
-/

namespace Forecast

/-! ### Rounding model -/

/-- Round half to even on the rationals, the tie rule of the Python
builtin round. -/
def rhe (q : ℚ) : ℤ :=
  if Int.fract q = 1/2 then (if ⌊q⌋ % 2 = 0 then ⌊q⌋ else ⌊q⌋ + 1) else round q

/-- Python round(x, 1) on the rational model. -/
def round1 (q : ℚ) : ℚ := (rhe (10 * q) : ℚ) / 10

/-- Python round(x, 2) on the rational model. -/
def round2 (q : ℚ) : ℚ := (rhe (100 * q) : ℚ) / 100

/-! ### Model of the Python builtin float applied to strings

The engine calls float only on the suffix of a PVI string after a
"D+"/"R+" prefix.  We model the plain decimal forms (optional
whitespace, optional sign, digits with an optional fractional part);
any other string raises ValueError, modelled as none.  The exotic
accepted forms (inf, nan, exponents, underscores) never occur in the
data of this program and are not modelled. -/

/-- Python str.strip: remove whitespace from both ends. -/
def pyStrip (cs : List Char) : List Char :=
  ((cs.dropWhile Char.isWhitespace).reverse.dropWhile Char.isWhitespace).reverse

def allDigits (cs : List Char) : Bool := cs.all (fun c => c.isDigit)

def digitsVal (cs : List Char) : ℕ := cs.foldl (fun a c => 10 * a + (c.toNat - 48)) 0

/-- Split at the first dot, if any. -/
def splitDot : List Char → List Char × Option (List Char)
  | [] => ([], none)
  | c :: rest =>
    if c == '.' then ([], some rest)
    else
      let p := splitDot rest
      (c :: p.1, p.2)

def pyFloatMag (cs : List Char) : Option ℚ :=
  match splitDot cs with
  | (ip, none) =>
    if !ip.isEmpty && allDigits ip then some ((digitsVal ip : ℚ)) else none
  | (ip, some fp) =>
    if (!ip.isEmpty || !fp.isEmpty) && allDigits ip && allDigits fp then
      some ((digitsVal ip : ℚ) + (digitsVal fp : ℚ) / 10 ^ fp.length)
    else none

/-- The Python builtin float on a string, restricted as described
above; none models a raised ValueError. -/
def pyFloat (cs : List Char) : Option ℚ :=
  let t := pyStrip cs
  match t with
  | '-' :: rest => (pyFloatMag rest).map (fun q => -q)
  | '+' :: rest => pyFloatMag rest
  | _ => pyFloatMag t

/-- Python startswith("D+"). -/
def startsDPlus : List Char → Bool
  | 'D' :: '+' :: _ => true
  | _ => false

/-- Python startswith("R+"). -/
def startsRPlus : List Char → Bool
  | 'R' :: '+' :: _ => true
  | _ => false

/-! ### Constants of the source file -/

/-- MODEL_COEFFICIENTS: the fixed OLS coefficients. -/
structure Coefficients where
  intercept : ℚ
  pvi : ℚ
  war : ℚ
  generic_ballot : ℚ
deriving DecidableEq

def MODEL_COEFFICIENTS : Coefficients :=
  { intercept := -0.2425
    pvi := 1.0320
    war := -0.5130
    generic_ballot := 0.1876 }

/-- Model standard error (RMSE).  It scales the random draws, which are
modelled here as explicitly supplied error lists, so this constant does
not otherwise enter the embedded computation. -/
def MODEL_RMSE : ℚ := 5.3522

/-- RETIREMENTS_2026: district key with (incumbent, party, reason). -/
def RETIREMENTS_2026 : List (String × String × String × String) :=
  [ ("NY-21", "Elise Stefanik", "R", "Retiring"),
    ("WA-04", "Dan Newhouse", "R", "Retiring"),
    ("TX-33", "Marc Veasey", "D", "Retiring"),
    ("TX-37", "Lloyd Doggett", "D", "Retiring"),
    ("TX-22", "Troy Nehls", "R", "Retiring"),
    ("NY-07", "Nydia Velazquez", "D", "Retiring"),
    ("TX-19", "Jodey Arrington", "R", "Retiring"),
    ("NJ-12", "Bonnie Watson Coleman", "D", "Retiring"),
    ("CA-11", "Nancy Pelosi", "D", "Retiring"),
    ("IL-04", "Jesus Garcia", "D", "Retiring"),
    ("ME-02", "Jared Golden", "D", "Retiring"),
    ("TX-10", "Michael McCaul", "R", "Retiring"),
    ("TX-08", "Morgan Luttrell", "R", "Retiring"),
    ("NY-12", "Jerrold Nadler", "D", "Retiring"),
    ("IL-07", "Danny K. Davis", "D", "Retiring"),
    ("NE-02", "Don Bacon", "R", "Retiring"),
    ("PA-03", "Dwight Evans", "D", "Retiring"),
    ("IL-09", "Jan Schakowsky", "D", "Retiring"),
    ("WY-AL", "Harriet Hageman", "R", "Running for Senate"),
    ("TX-30", "Jasmine Crockett", "D", "Running for Senate"),
    ("MA-06", "Seth Moulton", "D", "Running for Senate"),
    ("TX-38", "Wesley Hunt", "R", "Running for Senate"),
    ("IA-02", "Ashley Hinson", "R", "Running for Senate"),
    ("AL-01", "Barry Moore", "R", "Running for Senate"),
    ("GA-10", "Mike Collins", "R", "Running for Senate"),
    ("GA-01", "Buddy Carter", "R", "Running for Senate"),
    ("IL-08", "Raja Krishnamoorthi", "D", "Running for Senate"),
    ("IL-02", "Robin Kelly", "D", "Running for Senate"),
    ("MN-02", "Angie Craig", "D", "Running for Senate"),
    ("KY-06", "Andy Barr", "R", "Running for Senate"),
    ("MI-11", "Haley Stevens", "D", "Running for Senate"),
    ("NH-01", "Chris Pappas", "D", "Running for Senate"),
    ("CA-14", "Eric Swalwell", "D", "Running for Governor"),
    ("AZ-01", "David Schweikert", "R", "Running for Governor"),
    ("WI-07", "Tom Tiffany", "R", "Running for Governor"),
    ("SC-01", "Nancy Mace", "R", "Running for Governor"),
    ("SC-05", "Ralph Norman", "R", "Running for Governor"),
    ("SD-AL", "Dusty Johnson", "R", "Running for Governor"),
    ("IA-04", "Randy Feenstra", "R", "Running for Governor"),
    ("MI-10", "John James", "R", "Running for Governor"),
    ("TN-06", "John Rose", "R", "Running for Governor"),
    ("FL-19", "Byron Donalds", "R", "Running for Governor"),
    ("AZ-05", "Andy Biggs", "R", "Running for Governor"),
    ("TX-21", "Chip Roy", "R", "Running for AG"),
    ("NJ-11", "Mikie Sherrill", "D", "Resigned - Now Governor"),
    ("TN-07", "Mark Green", "R", "Resigned"),
    ("VA-11", "Gerald Connolly", "D", "Deceased"),
    ("AZ-07", "Raul Grijalva", "D", "Deceased"),
    ("TX-18", "Sylvester Turner", "D", "Deceased"),
    ("FL-06", "Michael Waltz", "R", "Resigned - NSA") ]

/-- The membership test `district in RETIREMENTS_2026`. -/
def is_open_seat_2026 (district : String) : Bool :=
  RETIREMENTS_2026.any (fun e => e.1 == district)

/-- `RETIREMENTS_2026.get(district, (None, None, None))[2]`. -/
def retirement_reason_2026 (district : String) : Option String :=
  (RETIREMENTS_2026.find? (fun e => e.1 == district)).map (fun e => e.2.2.2)

/-! ### The helper functions of the source file -/

/-- parse_pvi: convert a PVI string (such as "D+5", "R+10", "EVEN") to
numeric.  A none input models a missing (pd.isna) cell; a none result
models the ValueError raised by float on a malformed numeric suffix. -/
def parse_pvi (pvi_str : Option String) : Option ℚ :=
  match pvi_str with
  | none => some 0
  | some s =>
    if s = "EVEN" then some 0
    else
      let t := pyStrip s.toList
      if startsDPlus t then pyFloat (t.drop 2)
      else if startsRPlus t then (pyFloat (t.drop 2)).map (fun x => -x)
      else some 0

/-- get_race_rating: convert a margin to a race rating, optionally
using a win probability.  A none d_win_pct selects the margin-based
fallback, as with the Python default argument. -/
def get_race_rating (margin : ℚ) (d_win_pct : Option ℚ) : String :=
  match d_win_pct with
  | some p =>
    if p ≥ 99 then "Safe D"
    else if p ≥ 90 then "Likely D"
    else if p ≥ 75 then "Lean D"
    else if p > 50 then "Tilt D"
    else if p = 50 then "Toss-up"
    else if p ≥ 25 then "Tilt R"
    else if p ≥ 10 then "Lean R"
    else if p ≥ 1 then "Likely R"
    else "Safe R"
  | none =>
    let margin_abs := |margin|
    let winner := if margin > 0 then "D" else "R"
    if margin_abs > 15 then "Safe " ++ winner
    else if margin_abs > 10 then "Likely " ++ winner
    else if margin_abs > 5 then "Lean " ++ winner
    else "Toss-up " ++ winner

/-- forecast_district: predicted Democratic margin for a district. -/
def forecast_district (pvi war generic_ballot : ℚ) : ℚ :=
  MODEL_COEFFICIENTS.intercept +
    MODEL_COEFFICIENTS.pvi * pvi +
    MODEL_COEFFICIENTS.war * war +
    MODEL_COEFFICIENTS.generic_ballot * generic_ballot

/-- The winner convention of run_forecast:
`pred_winner = 'D' if pred_margin > 0 else 'R'`. -/
def predicted_winner (pred_margin : ℚ) : String :=
  if pred_margin > 0 then "D" else "R"

/-- Output record of simulate_race (margin_std omitted, see header). -/
structure SimResult where
  d_wins : ℕ
  r_wins : ℕ
  d_win_pct : ℚ
  r_win_pct : ℚ
  avg_margin : ℚ
deriving DecidableEq

/-- The trial loop of simulate_race: accumulates (d_wins, r_wins,
margins) over the supplied error draws. -/
def simLoop (pm : ℚ) : List ℚ → ℕ × ℕ × List ℚ → ℕ × ℕ × List ℚ
  | [], acc => acc
  | e :: rest, acc =>
    let sm := pm + e
    if sm > 0 then simLoop pm rest (acc.1 + 1, acc.2.1, acc.2.2 ++ [sm])
    else simLoop pm rest (acc.1, acc.2.1 + 1, acc.2.2 ++ [sm])

/-- simulate_race: the per-race Monte Carlo loop.  The gauss draws are
the supplied errors list (n_simulations = errors.length).  With zero
trials the computation `d_wins / n_simulations` raises
ZeroDivisionError, modelled as none. -/
def simulate_race (predicted_margin : ℚ) (errors : List ℚ) : Option SimResult :=
  let acc := simLoop predicted_margin errors (0, 0, [])
  if errors.length = 0 then none
  else
    let n : ℚ := errors.length
    let d_win_pct := (acc.1 : ℚ) / n * 100
    some
      { d_wins := acc.1
        r_wins := acc.2.1
        d_win_pct := round1 d_win_pct
        r_win_pct := round1 (100 - d_win_pct)
        avg_margin := round2 (acc.2.2.sum / n) }

/-- One district of one whole-chamber trial of simulate_all_races. -/
def chamberStep (acc : ℕ × ℕ) (me : ℚ × ℚ) : ℕ × ℕ :=
  if me.1 + me.2 > 0 then (acc.1 + 1, acc.2) else (acc.1, acc.2 + 1)

/-- One whole-chamber trial: seat counts (d_seats, r_seats) for one
draw of per-district errors. -/
def chamberTrial (predicted_margins errors : List ℚ) : ℕ × ℕ :=
  (predicted_margins.zip errors).foldl chamberStep (0, 0)

/-- Output record of simulate_all_races (d_std, d_median, d_min, d_max
omitted, see header). -/
structure ChamberSummary where
  d_seats : List ℕ
  r_seats : List ℕ
  d_mean : ℚ
  r_mean : ℚ
  d_majority_pct : ℚ
deriving DecidableEq

/-- simulate_all_races: Monte Carlo simulation of the entire House;
one errors list per trial.  Note the hardcoded 218 in the majority
count. -/
def simulate_all_races (predicted_margins : List ℚ) (errorss : List (List ℚ)) : ChamberSummary :=
  let counts := errorss.map (fun es => chamberTrial predicted_margins es)
  let d_seat_counts := counts.map (fun c => c.1)
  let r_seat_counts := counts.map (fun c => c.2)
  let n : ℚ := errorss.length
  { d_seats := d_seat_counts
    r_seats := r_seat_counts
    d_mean := (d_seat_counts.map (fun x => (x : ℚ))).sum / n
    r_mean := (r_seat_counts.map (fun x => (x : ℚ))).sum / n
    d_majority_pct := ((d_seat_counts.countP (fun x => decide (x ≥ 218))) : ℚ) / n * 100 }

/-- One row of the PVI input table, as read by run_forecast:
columns Dist, 2025 Incumbent, Party, 2025 PVI. -/
structure DistrictInput where
  dist : String
  incumbent_2025 : String
  party : String
  pvi_2025 : Option String
deriving DecidableEq

/-- One forecast row appended by run_forecast (sim_margin_std omitted,
see header). -/
structure ForecastRow where
  district_id : String
  incumbent_2025 : String
  incumbent_party : String
  pvi_string : Option String
  pvi_numeric : ℚ
  is_open_seat : Bool
  retirement_reason : Option String
  war : ℚ
  generic_ballot : ℚ
  predicted_margin : ℚ
  predicted_winner : String
  d_win_pct : ℚ
  r_win_pct : ℚ
  race_rating : String
  potential_flip : Bool
  sim_avg_margin : ℚ
deriving DecidableEq

/-- The per-district body of the run_forecast loop.  war_dict is the
WAR lookup (`war_dict.get(district, 0.0)` is modelled by getD 0);
errors is the gauss draw list for this district.  none propagates a
parse_pvi ValueError or a zero-trial simulate_race. -/
def process_district (row : DistrictInput) (war_dict : String → Option ℚ)
    (generic_ballot : ℚ) (errors : List ℚ) : Option ForecastRow := do
  let pvi ← parse_pvi row.pvi_2025
  let war0 := (war_dict row.dist).getD 0
  let is_open := is_open_seat_2026 row.dist
  let reason := if is_open then retirement_reason_2026 row.dist else none
  let war := if is_open then 0 else war0
  let pred_margin := forecast_district pvi war generic_ballot
  let pred_winner := predicted_winner pred_margin
  let sim ← simulate_race pred_margin errors
  let rating := get_race_rating pred_margin (some sim.d_win_pct)
  pure
    { district_id := row.dist
      incumbent_2025 := row.incumbent_2025
      incumbent_party := row.party
      pvi_string := row.pvi_2025
      pvi_numeric := pvi
      is_open_seat := is_open
      retirement_reason := reason
      war := war
      generic_ballot := generic_ballot
      predicted_margin := round2 pred_margin
      predicted_winner := pred_winner
      d_win_pct := sim.d_win_pct
      r_win_pct := sim.r_win_pct
      race_rating := rating
      potential_flip := pred_winner != row.party
      sim_avg_margin := sim.avg_margin }

/-- run_forecast: the forecast loop over all districts.  ess i is the
gauss draw list used for the i-th district.  The final presentation
sort by absolute predicted margin is omitted: it is a stable reordering
by a key that, as proved below, does not depend on the draws. -/
def run_forecast : List DistrictInput → (String → Option ℚ) → ℚ → (ℕ → List ℚ) →
    Option (List ForecastRow)
  | [], _, _, _ => some []
  | row :: rest, war_dict, generic_ballot, ess => do
    let r ← process_district row war_dict generic_ballot (ess 0)
    let rs ← run_forecast rest war_dict generic_ballot (fun i => ess (i + 1))
    pure (r :: rs)

/-! ### Spec-side definition for the refinement claim on the
Rating Classifier -/

/-- Modelled from the spec: the primary-mode threshold table of
section 4.4, exactly as the spec words it. -/
def ratingOfProbSpec (p : ℚ) : String :=
  if p ≥ 99 then "Safe D"
  else if p ≥ 90 then "Likely D"
  else if p ≥ 75 then "Lean D"
  else if p > 50 then "Tilt D"
  else if p = 50 then "Toss-up"
  else if p ≥ 25 then "Tilt R"
  else if p ≥ 10 then "Lean R"
  else if p ≥ 1 then "Likely R"
  else "Safe R"

/-! ### Rounding lemmas -/

lemma rhe_intCast (z : ℤ) : rhe (z : ℚ) = z := by
  unfold rhe
  rw [Int.fract_intCast, if_neg (by norm_num), round_intCast]

/-- Evaluation rule for rhe away from a tie. -/
lemma rhe_of_bounds {q : ℚ} {z : ℤ} (h1 : (z : ℚ) ≤ q + 1/2)
    (h2 : q + 1/2 < (z : ℚ) + 1) (hne : q + 1/2 ≠ (z : ℚ)) : rhe q = z := by
  have hfl : ⌊q + 1/2⌋ = z := by
    rw [Int.floor_eq_iff]
    refine ⟨h1, by linarith⟩
  have hfr : Int.fract q ≠ 1/2 := by
    intro hc
    have hy := Int.floor_add_fract q
    rw [hc] at hy
    have hq2 : q + 1/2 = ((⌊q⌋ + 1 : ℤ) : ℚ) := by push_cast; linarith
    rw [hq2, Int.floor_intCast] at hfl
    exact hne (by rw [hq2, hfl])
  unfold rhe
  rw [if_neg hfr, round_eq, hfl]

/-- The complement identity of round-half-even: rounding y and 1000 - y
always adds up to 1000 (the tie cases land on floors of opposite
parity). -/
lemma rhe_compl (y : ℚ) : rhe y + rhe (1000 - y) = 1000 := by
  have hy := Int.floor_add_fract y
  have hf0 := Int.fract_nonneg y
  have hf1 := Int.fract_lt_one y
  by_cases h : Int.fract y = 1/2
  · have hfl : ⌊(1000 : ℚ) - y⌋ = 999 - ⌊y⌋ := by
      rw [Int.floor_eq_iff]
      push_cast
      constructor <;> linarith
    have hfr : Int.fract ((1000 : ℚ) - y) = 1/2 := by
      have h3 := Int.floor_add_fract ((1000 : ℚ) - y)
      rw [hfl] at h3
      push_cast at h3
      linarith
    unfold rhe
    rw [if_pos h, if_pos hfr, hfl]
    have hpar : ⌊y⌋ % 2 = 0 ∨ ⌊y⌋ % 2 = 1 := by omega
    rcases hpar with h2 | h2
    · rw [if_pos h2, if_neg (by omega)]
      omega
    · rw [if_neg (by omega), if_pos (by omega)]
      omega
  · have h2 : Int.fract ((1000 : ℚ) - y) ≠ 1/2 := by
      by_cases hz : Int.fract y = 0
      · have hcast : (1000 : ℚ) - y = ((1000 - ⌊y⌋ : ℤ) : ℚ) := by push_cast; linarith
        rw [hcast, Int.fract_intCast]
        norm_num
      · have hzpos : 0 < Int.fract y := lt_of_le_of_ne hf0 (Ne.symm hz)
        have hfl : ⌊(1000 : ℚ) - y⌋ = 999 - ⌊y⌋ := by
          rw [Int.floor_eq_iff]
          push_cast
          constructor <;> linarith
        have h3 := Int.floor_add_fract ((1000 : ℚ) - y)
        rw [hfl] at h3
        push_cast at h3
        intro hc
        rw [hc] at h3
        exact h (by linarith)
    unfold rhe
    rw [if_neg h, if_neg h2, round_eq, round_eq]
    rcases lt_or_gt_of_ne h with hlt | hgt
    · have e1 : ⌊y + 1/2⌋ = ⌊y⌋ := by
        rw [Int.floor_eq_iff]
        constructor <;> linarith
      have e2 : ⌊(1000 : ℚ) - y + 1/2⌋ = 1000 - ⌊y⌋ := by
        rw [Int.floor_eq_iff]
        push_cast
        constructor <;> linarith
      rw [e1, e2]
      ring
    · have e1 : ⌊y + 1/2⌋ = ⌊y⌋ + 1 := by
        rw [Int.floor_eq_iff]
        push_cast
        constructor <;> linarith
      have e2 : ⌊(1000 : ℚ) - y + 1/2⌋ = 999 - ⌊y⌋ := by
        rw [Int.floor_eq_iff]
        push_cast
        constructor <;> linarith
      rw [e1, e2]
      ring

/-- The two reported win probabilities of a race always sum to 100. -/
lemma round1_add_compl (x : ℚ) : round1 x + round1 (100 - x) = 100 := by
  unfold round1
  have h10 : 10 * (100 - x) = 1000 - 10 * x := by ring
  rw [h10]
  have h := rhe_compl (10 * x)
  have hcast : ((rhe (10 * x) + rhe (1000 - 10 * x) : ℤ) : ℚ) = 1000 := by
    exact_mod_cast congrArg (fun z : ℤ => (z : ℚ)) h
  push_cast at hcast
  linarith

lemma round1_eval {q : ℚ} {z : ℤ} (h1 : (z : ℚ) ≤ 10 * q + 1/2)
    (h2 : 10 * q + 1/2 < (z : ℚ) + 1) (hne : 10 * q + 1/2 ≠ (z : ℚ)) :
    round1 q = (z : ℚ) / 10 := by
  unfold round1
  rw [rhe_of_bounds h1 h2 hne]

lemma round2_eval {q : ℚ} {z : ℤ} (h1 : (z : ℚ) ≤ 100 * q + 1/2)
    (h2 : 100 * q + 1/2 < (z : ℚ) + 1) (hne : 100 * q + 1/2 ≠ (z : ℚ)) :
    round2 q = (z : ℚ) / 100 := by
  unfold round2
  rw [rhe_of_bounds h1 h2 hne]

/-! ### Simulation loop lemmas -/

lemma simLoop_d (pm : ℚ) (es : List ℚ) (acc : ℕ × ℕ × List ℚ) :
    (simLoop pm es acc).1 = acc.1 + es.countP (fun e => decide (pm + e > 0)) := by
  induction es generalizing acc with
  | nil => simp [simLoop]
  | cons e rest ih =>
    by_cases hc : pm + e > 0 <;>
      (simp [simLoop, hc, ih, List.countP_cons]; try omega)

lemma simLoop_r (pm : ℚ) (es : List ℚ) (acc : ℕ × ℕ × List ℚ) :
    (simLoop pm es acc).2.1 = acc.2.1 + es.countP (fun e => !decide (pm + e > 0)) := by
  induction es generalizing acc with
  | nil => simp [simLoop]
  | cons e rest ih =>
    by_cases hc : pm + e > 0 <;>
      (simp [simLoop, hc, ih, List.countP_cons]; try omega)

lemma simLoop_sum (pm : ℚ) (es : List ℚ) (acc : ℕ × ℕ × List ℚ) :
    (simLoop pm es acc).1 + (simLoop pm es acc).2.1 = acc.1 + acc.2.1 + es.length := by
  induction es generalizing acc with
  | nil => simp [simLoop]
  | cons e rest ih =>
    by_cases hc : pm + e > 0 <;> (simp [simLoop, hc, ih]; omega)

lemma simulate_race_eq (pm : ℚ) (errors : List ℚ) (h : errors ≠ []) :
    simulate_race pm errors = some
      { d_wins := (simLoop pm errors (0, 0, [])).1
        r_wins := (simLoop pm errors (0, 0, [])).2.1
        d_win_pct := round1 (((simLoop pm errors (0, 0, [])).1 : ℚ) / (errors.length : ℚ) * 100)
        r_win_pct :=
          round1 (100 - ((simLoop pm errors (0, 0, [])).1 : ℚ) / (errors.length : ℚ) * 100)
        avg_margin := round2 ((simLoop pm errors (0, 0, [])).2.2.sum / (errors.length : ℚ)) } := by
  unfold simulate_race
  rw [if_neg (fun hc => h (List.length_eq_zero.mp hc))]

lemma chamberFold_sum (pairs : List (ℚ × ℚ)) (acc : ℕ × ℕ) :
    (pairs.foldl chamberStep acc).1 + (pairs.foldl chamberStep acc).2 =
      acc.1 + acc.2 + pairs.length := by
  induction pairs generalizing acc with
  | nil => simp
  | cons p rest ih =>
    by_cases hc : p.1 + p.2 > 0 <;>
      (simp only [List.foldl_cons]; rw [ih]; simp [chamberStep, hc]; omega)

lemma is_open_seat_2026_iff (d : String) :
    is_open_seat_2026 d = true ↔ d ∈ RETIREMENTS_2026.map (fun e => e.1) := by
  rw [is_open_seat_2026, List.any_eq_true]
  simp only [beq_iff_eq, List.mem_map]

lemma process_district_def (row : DistrictInput) (wd : String → Option ℚ) (gb : ℚ)
    (errors : List ℚ) :
    process_district row wd gb errors =
      (parse_pvi row.pvi_2025).bind (fun pvi =>
        (simulate_race
            (forecast_district pvi
              (if is_open_seat_2026 row.dist then 0 else (wd row.dist).getD 0) gb)
            errors).bind (fun sim =>
          some
            { district_id := row.dist
              incumbent_2025 := row.incumbent_2025
              incumbent_party := row.party
              pvi_string := row.pvi_2025
              pvi_numeric := pvi
              is_open_seat := is_open_seat_2026 row.dist
              retirement_reason :=
                if is_open_seat_2026 row.dist then retirement_reason_2026 row.dist else none
              war := if is_open_seat_2026 row.dist then 0 else (wd row.dist).getD 0
              generic_ballot := gb
              predicted_margin :=
                round2 (forecast_district pvi
                  (if is_open_seat_2026 row.dist then 0 else (wd row.dist).getD 0) gb)
              predicted_winner :=
                predicted_winner (forecast_district pvi
                  (if is_open_seat_2026 row.dist then 0 else (wd row.dist).getD 0) gb)
              d_win_pct := sim.d_win_pct
              r_win_pct := sim.r_win_pct
              race_rating :=
                get_race_rating
                  (forecast_district pvi
                    (if is_open_seat_2026 row.dist then 0 else (wd row.dist).getD 0) gb)
                  (some sim.d_win_pct)
              potential_flip :=
                predicted_winner (forecast_district pvi
                  (if is_open_seat_2026 row.dist then 0 else (wd row.dist).getD 0) gb)
                  != row.party
              sim_avg_margin := sim.avg_margin })) := rfl

lemma run_forecast_cons (row : DistrictInput) (rest : List DistrictInput)
    (wd : String → Option ℚ) (gb : ℚ) (ess : ℕ → List ℚ) :
    run_forecast (row :: rest) wd gb ess =
      (process_district row wd gb (ess 0)).bind (fun r =>
        (run_forecast rest wd gb (fun i => ess (i + 1))).bind (fun rs =>
          some (r :: rs))) := rfl

/-! ### Claim theorems -/

/-- C1: for every win probability p, the primary (probability-based)
mode of the Rating Classifier is determined by exactly the stated
thresholds (p ≥ 99 Safe D; p ≥ 90 Likely D; p ≥ 75 Lean D; p > 50
Tilt D; p = 50 Toss-up with no suffix; p ≥ 25 Tilt R; p ≥ 10 Lean R;
p ≥ 1 Likely R; else Safe R), independently of the margin argument,
and the ten literal boundary inputs produce the stated labels. -/
theorem rating_primary_thresholds :
    (∀ (m p : ℚ), get_race_rating m (some p) = ratingOfProbSpec p) ∧
    (∀ (m p : ℚ),
      (99 ≤ p → get_race_rating m (some p) = "Safe D") ∧
      (90 ≤ p → p < 99 → get_race_rating m (some p) = "Likely D") ∧
      (75 ≤ p → p < 90 → get_race_rating m (some p) = "Lean D") ∧
      (50 < p → p < 75 → get_race_rating m (some p) = "Tilt D") ∧
      (get_race_rating m (some 50) = "Toss-up") ∧
      (25 ≤ p → p < 50 → get_race_rating m (some p) = "Tilt R") ∧
      (10 ≤ p → p < 25 → get_race_rating m (some p) = "Lean R") ∧
      (1 ≤ p → p < 10 → get_race_rating m (some p) = "Likely R") ∧
      (p < 1 → get_race_rating m (some p) = "Safe R")) ∧
    (get_race_rating 0 (some 99) = "Safe D" ∧
      get_race_rating 0 (some 90) = "Likely D" ∧
      get_race_rating 0 (some 75) = "Lean D" ∧
      get_race_rating 0 (some 50.1) = "Tilt D" ∧
      get_race_rating 0 (some 50) = "Toss-up" ∧
      get_race_rating 0 (some 49.9) = "Tilt R" ∧
      get_race_rating 0 (some 25) = "Tilt R" ∧
      get_race_rating 0 (some 10) = "Lean R" ∧
      get_race_rating 0 (some 1) = "Likely R" ∧
      get_race_rating 0 (some 0.5) = "Safe R") := by
  refine ⟨fun m p => rfl, fun m p => ?_, ?_⟩
  · refine ⟨?_, ?_, ?_, ?_, ?_, ?_, ?_, ?_, ?_⟩ <;>
      (intros
       simp only [get_race_rating]
       split_ifs <;> first | rfl | linarith)
  · refine ⟨?_, ?_, ?_, ?_, ?_, ?_, ?_, ?_, ?_, ?_⟩ <;> norm_num [get_race_rating]

/-- C1 witness: the Likely D threshold clause applied at p = 95. -/
theorem rating_primary_thresholds_witness :
    get_race_rating 0 (some 95) = "Likely D" :=
  (rating_primary_thresholds.2.1 0 95).2.1 (by norm_num) (by norm_num)

/-- C2: the District Model is the stated pure linear function over the
fixed coefficients, total on all rational inputs, and additive in each
argument separately with increment weight equal to the matching
coefficient. -/
theorem district_model_linear :
    ∀ (lean war env d : ℚ),
      forecast_district lean war env =
        MODEL_COEFFICIENTS.intercept + MODEL_COEFFICIENTS.pvi * lean +
          MODEL_COEFFICIENTS.war * war + MODEL_COEFFICIENTS.generic_ballot * env ∧
      forecast_district lean war (env + d) - forecast_district lean war env =
        MODEL_COEFFICIENTS.generic_ballot * d ∧
      forecast_district (lean + d) war env - forecast_district lean war env =
        MODEL_COEFFICIENTS.pvi * d ∧
      forecast_district lean (war + d) env - forecast_district lean war env =
        MODEL_COEFFICIENTS.war * d := by
  intro lean war env d
  refine ⟨rfl, ?_, ?_, ?_⟩ <;> (unfold forecast_district; ring)

/-- C3 counterexample: the Lean Parser is not total — on the input
"D+x" the suffix is handed to float, which raises ValueError (modelled
as none), refuting the claim that every string maps to a numeric value
and never raises. -/
theorem parse_pvi_raises_on_malformed : parse_pvi (some "D+x") = none := by decide

/-- C3 (amended): a missing value and "EVEN" map to 0.0, "D+n" to +n,
"R+n" to -n, and any string not starting (after stripping) with "D+"
or "R+" maps to 0.0 with no side effects; but a string starting with
"D+" or "R+" whose remainder is not a valid numeric literal raises
ValueError instead of returning. -/
theorem parse_pvi_behavior :
    parse_pvi none = some 0 ∧
    parse_pvi (some "EVEN") = some 0 ∧
    parse_pvi (some "D+7") = some 7 ∧
    parse_pvi (some "R+12") = some (-12) ∧
    parse_pvi (some "garbage") = some 0 ∧
    (∀ s : String, startsDPlus (pyStrip s.toList) = false →
      startsRPlus (pyStrip s.toList) = false → parse_pvi (some s) = some 0) := by
  refine ⟨rfl, by decide, by decide, by decide, by decide, ?_⟩
  intro s h1 h2
  unfold parse_pvi
  simp only [String.toList] at h1 h2
  by_cases hEq : s = "EVEN"
  · simp [hEq]
  · simp [hEq, h1, h2]

/-- C3 witness: the unrecognized-string clause applied at "hello". -/
theorem parse_pvi_behavior_witness : parse_pvi (some "hello") = some 0 :=
  parse_pvi_behavior.2.2.2.2.2 "hello" (by decide) (by decide)

/-- C4: an exact-zero margin always resolves to R — the orchestrator
winner is D iff the margin is strictly positive, and each simulation
trial counts a win for D exactly when the simulated margin is strictly
positive (a simulated margin of exactly 0 therefore counts for R, the
same convention in both places). -/
theorem zero_margin_resolves_R :
    predicted_winner 0 = "R" ∧
    (∀ m : ℚ, predicted_winner m = "D" ↔ 0 < m) ∧
    (∀ (pm : ℚ) (errors : List ℚ),
      (simulate_race pm errors).map (fun r => (r.d_wins, r.r_wins)) =
        (simulate_race pm errors).map (fun _ =>
          (errors.countP (fun e => decide (pm + e > 0)),
            errors.countP (fun e => !decide (pm + e > 0))))) ∧
    (simulate_race 5 [-5]).map (fun r => (r.d_wins, r.r_wins)) = some (0, 1) := by
  refine ⟨by norm_num [predicted_winner], ?_, ?_, ?_⟩
  · intro m
    by_cases h : m > 0 <;> simp [predicted_winner, h]
  · intro pm errors
    rcases eq_or_ne errors [] with h | h
    · simp [h, simulate_race]
    · rw [simulate_race_eq pm errors h]
      simp [simLoop_d, simLoop_r]
  · rw [simulate_race_eq 5 [-5] (by simp)]
    simp only [Option.map_some']
    norm_num [simLoop_d, simLoop_r, List.countP_cons]

/-- C5 counterexample: at an exact tie the two Rating Classifier modes
do not agree — the fallback mode at margin 0 returns "Toss-up R" (a
label with a party suffix), not the suffix-free "Toss-up" of the
primary mode at probability 50. -/
theorem rating_modes_tie_disagree :
    get_race_rating 0 none = "Toss-up R" ∧ get_race_rating 0 none ≠ "Toss-up" := by
  have h : get_race_rating 0 none = "Toss-up R" := by
    simp only [get_race_rating, abs_zero]
    norm_num
    decide
  exact ⟨h, by rw [h]; decide⟩

/-- C5 (amended): the margin fallback and the probability-based
primary mode agree on the Safe, Likely and Lean families at
corresponding boundaries, with winner by sign; but at an exact tie the
primary mode returns the suffix-free "Toss-up" while the fallback
returns "Toss-up R" (tie resolved to R) — indeed the fallback never
produces a suffix-free "Toss-up". -/
theorem rating_modes_boundaries :
    (get_race_rating 16 none = "Safe D" ∧ get_race_rating 0 (some 99) = "Safe D") ∧
    (get_race_rating (-16) none = "Safe R" ∧ get_race_rating 0 (some 0.5) = "Safe R") ∧
    (get_race_rating 11 none = "Likely D" ∧ get_race_rating 0 (some 90) = "Likely D") ∧
    (get_race_rating (-11) none = "Likely R" ∧ get_race_rating 0 (some 1) = "Likely R") ∧
    (get_race_rating 6 none = "Lean D" ∧ get_race_rating 0 (some 75) = "Lean D") ∧
    (get_race_rating (-6) none = "Lean R" ∧ get_race_rating 0 (some 10) = "Lean R") ∧
    (get_race_rating 0 (some 50) = "Toss-up" ∧ get_race_rating 0 none = "Toss-up R") ∧
    (∀ m : ℚ, get_race_rating m none ≠ "Toss-up") := by
  have h16 : |(16 : ℚ)| = 16 := abs_of_pos (by norm_num)
  have hn16 : |(-16 : ℚ)| = 16 := by rw [abs_neg]; exact h16
  have h11 : |(11 : ℚ)| = 11 := abs_of_pos (by norm_num)
  have hn11 : |(-11 : ℚ)| = 11 := by rw [abs_neg]; exact h11
  have h6 : |(6 : ℚ)| = 6 := abs_of_pos (by norm_num)
  have hn6 : |(-6 : ℚ)| = 6 := by rw [abs_neg]; exact h6
  have hall : ∀ m : ℚ, get_race_rating m none ≠ "Toss-up" := by
    intro m
    simp only [get_race_rating]
    split_ifs <;> decide
  refine ⟨⟨?_, ?_⟩, ⟨?_, ?_⟩, ⟨?_, ?_⟩, ⟨?_, ?_⟩, ⟨?_, ?_⟩, ⟨?_, ?_⟩, ⟨?_, ?_⟩, hall⟩ <;>
    (norm_num [get_race_rating, h16, hn16, h11, hn11, h6, hn6, abs_zero]; try decide)

/-- C6: for every race simulation with at least one trial, the two
per-party win counts sum to the trial count (each trial is awarded to
exactly one party), each reported win probability equals that party
win count over N times 100 rounded to one decimal place (internal
accumulation is exact), and the two reported probabilities sum to
exactly 100. -/
theorem simulate_race_probabilities (pm : ℚ) (errors : List ℚ) (h : errors ≠ []) :
    ((simulate_race pm errors).map (fun r => r.d_wins + r.r_wins) =
      (simulate_race pm errors).map (fun _ => errors.length)) ∧
    ((simulate_race pm errors).map (fun r => r.d_win_pct) =
      (simulate_race pm errors).map
        (fun r => round1 ((r.d_wins : ℚ) / (errors.length : ℚ) * 100))) ∧
    ((simulate_race pm errors).map (fun r => r.r_win_pct) =
      (simulate_race pm errors).map
        (fun r => round1 ((r.r_wins : ℚ) / (errors.length : ℚ) * 100))) ∧
    ((simulate_race pm errors).map (fun r => r.d_win_pct + r.r_win_pct) =
      (simulate_race pm errors).map (fun _ => (100 : ℚ))) := by
  have hlen : errors.length ≠ 0 := fun hc => h (List.length_eq_zero.mp hc)
  have hn : ((errors.length : ℕ) : ℚ) ≠ 0 := Nat.cast_ne_zero.mpr hlen
  have hsum : (simLoop pm errors (0, 0, [])).1 + (simLoop pm errors (0, 0, [])).2.1 =
      errors.length := by
    have hs := simLoop_sum pm errors (0, 0, [])
    simpa using hs
  rw [simulate_race_eq pm errors h]
  refine ⟨?_, rfl, ?_, ?_⟩
  · simp only [Option.map_some']
    exact congrArg some hsum
  · simp only [Option.map_some', Option.some.injEq]
    congr 1
    have hcast : ((simLoop pm errors (0, 0, [])).1 : ℚ) +
        ((simLoop pm errors (0, 0, [])).2.1 : ℚ) = (errors.length : ℚ) := by
      exact_mod_cast hsum
    field_simp
    linarith
  · simp only [Option.map_some']
    exact congrArg some (round1_add_compl _)

/-- C6 witness: the win-count clause of the theorem instantiated at a
one-trial simulation. -/
theorem simulate_race_probabilities_witness :
    (simulate_race 0 [1]).map (fun r => r.d_wins + r.r_wins) =
      (simulate_race 0 [1]).map (fun _ => ([1] : List ℚ).length) :=
  (simulate_race_probabilities 0 [1] (by simp)).1

/-- C7 (amended): the reported chamber majority probability is the
percentage of trials whose D seat count meets or exceeds 218 — the
majority threshold of the 435-seat House (half the chamber rounded
up), hardcoded rather than parameterized by chamber size; each trial
awards every district to exactly one party. -/
theorem chamber_majority_hardcoded :
    (∀ (margins : List ℚ) (errorss : List (List ℚ)),
      (simulate_all_races margins errorss).d_majority_pct =
        ((errorss.countP (fun es => decide ((chamberTrial margins es).1 ≥ 218))) : ℚ) /
          (errorss.length : ℚ) * 100) ∧
    (∀ (margins es : List ℚ), es.length = margins.length →
      (chamberTrial margins es).1 + (chamberTrial margins es).2 = margins.length) ∧
    ((218 : ℕ) = (435 + 1) / 2) := by
  refine ⟨?_, ?_, rfl⟩
  · intro margins errorss
    simp only [simulate_all_races]
    rw [List.map_map, List.countP_map]
    rfl
  · intro margins es hlen
    have hfold := chamberFold_sum (margins.zip es) (0, 0)
    simp only [chamberTrial]
    rw [hfold]
    simp [List.length_zip, hlen]

/-- C7 witness: the per-trial seat-count clause applied at a concrete
two-district chamber. -/
theorem chamber_majority_hardcoded_witness :
    (chamberTrial [1, 2] [0, 0]).1 + (chamberTrial [1, 2] [0, 0]).2 =
      ([1, 2] : List ℚ).length :=
  chamber_majority_hardcoded.2.1 [1, 2] [0, 0] rfl

/-- C7 counterexample: a 3-district chamber with margins
[+20, +20, -20] and zero noise gives 2 seats to D in its only trial,
yet the reported majority probability is 0 rather than the 100 that a
half-the-chamber-rounded-up threshold (2 of 3) would give: the 218
threshold does not generalize to other chamber sizes. -/
theorem chamber_majority_not_parameterized :
    (simulate_all_races [20, 20, -20] [[0, 0, 0]]).d_seats = [2] ∧
    (simulate_all_races [20, 20, -20] [[0, 0, 0]]).d_majority_pct = 0 ∧
    (simulate_all_races [20, 20, -20] [[0, 0, 0]]).d_majority_pct ≠ 100 := by
  have htrial : chamberTrial [20, 20, -20] [0, 0, 0] = (2, 1) := by
    norm_num [chamberTrial, chamberStep, List.zip_cons_cons]
  refine ⟨?_, ?_, ?_⟩ <;> norm_num [simulate_all_races, htrial]

/-- C8 (amended): for two full runs on identical inputs, every
district predicted margin and predicted winner is identical across the
runs even when the random draws differ; the race rating, however, is
derived from the simulated win probability, so only the margin and
winner columns are draw-invariant (see the counterexample for the
rating). -/
theorem run_forecast_margins_deterministic :
    ∀ (records : List DistrictInput) (wd : String → Option ℚ) (gb : ℚ)
      (ess1 ess2 : ℕ → List ℚ),
      (∀ i, ess1 i ≠ [] ∧ ess2 i ≠ []) →
      (run_forecast records wd gb ess1).map (List.map (fun r => r.predicted_margin)) =
        (run_forecast records wd gb ess2).map (List.map (fun r => r.predicted_margin)) ∧
      (run_forecast records wd gb ess1).map (List.map (fun r => r.predicted_winner)) =
        (run_forecast records wd gb ess2).map (List.map (fun r => r.predicted_winner)) := by
  intro records
  induction records with
  | nil =>
    intro wd gb ess1 ess2 hne
    exact ⟨rfl, rfl⟩
  | cons row rest ih =>
    intro wd gb ess1 ess2 hne
    have ihm := ih wd gb (fun i => ess1 (i + 1)) (fun i => ess2 (i + 1))
      (fun i => hne (i + 1))
    rw [run_forecast_cons, run_forecast_cons]
    rcases hp : parse_pvi row.pvi_2025 with _ | pvi
    · rw [process_district_def, process_district_def, hp]
      exact ⟨rfl, rfl⟩
    · rw [process_district_def, process_district_def, hp]
      simp only [Option.some_bind]
      rw [simulate_race_eq _ (ess1 0) (hne 0).1, simulate_race_eq _ (ess2 0) (hne 0).2]
      rcases hr1 : run_forecast rest wd gb (fun i => ess1 (i + 1)) with _ | rs1 <;>
        rcases hr2 : run_forecast rest wd gb (fun i => ess2 (i + 1)) with _ | rs2 <;>
        rw [hr1, hr2] at ihm
      · exact ⟨rfl, rfl⟩
      · simp at ihm
      · simp at ihm
      · simp only [Option.map_some', Option.some.injEq] at ihm
        simp only [Option.some_bind, Option.map_some', Option.some.injEq, List.map_cons]
        exact ⟨by rw [ihm.1], by rw [ihm.2]⟩

/-- C8 witness: the theorem applied to a one-district record set with
two different one-trial draw families. -/
theorem run_forecast_margins_deterministic_witness :
    (run_forecast
        [{ dist := "ZZ-01", incumbent_2025 := "Nobody", party := "D", pvi_2025 := none }]
        (fun _ => none) 0 (fun _ => [1])).map (List.map (fun r => r.predicted_margin)) =
      (run_forecast
        [{ dist := "ZZ-01", incumbent_2025 := "Nobody", party := "D", pvi_2025 := none }]
        (fun _ => none) 0 (fun _ => [-1])).map (List.map (fun r => r.predicted_margin)) :=
  (run_forecast_margins_deterministic
    [{ dist := "ZZ-01", incumbent_2025 := "Nobody", party := "D", pvi_2025 := none }]
    (fun _ => none) 0 (fun _ => [1]) (fun _ => [-1])
    (fun _ => ⟨by simp, by simp⟩)).1

/-- C8 counterexample: the race rating is not identical across two
runs on identical inputs with different draws — a one-trial run
drawing +1 rates the district Safe D, while drawing -1 rates it
Safe R. -/
theorem run_forecast_rating_not_deterministic :
    (run_forecast
        [{ dist := "ZZ-01", incumbent_2025 := "Nobody", party := "D", pvi_2025 := none }]
        (fun _ => none) 0 (fun _ => [1])).map (List.map (fun r => r.race_rating)) =
      some ["Safe D"] ∧
    (run_forecast
        [{ dist := "ZZ-01", incumbent_2025 := "Nobody", party := "D", pvi_2025 := none }]
        (fun _ => none) 0 (fun _ => [-1])).map (List.map (fun r => r.race_rating)) =
      some ["Safe R"] ∧
    (["Safe D"] : List String) ≠ ["Safe R"] := by
  have hopen : is_open_seat_2026 "ZZ-01" = false := by decide
  have h100 : round1 (100 : ℚ) = 100 := by
    have hv := @round1_eval (100 : ℚ) 1000 (by norm_num) (by norm_num) (by norm_num)
    rw [hv]
    norm_num
  have h0 : round1 (0 : ℚ) = 0 := by
    have hv := @round1_eval (0 : ℚ) 0 (by norm_num) (by norm_num) (by norm_num)
    rw [hv]
    norm_num
  refine ⟨?_, ?_, by decide⟩ <;>
    (rw [run_forecast_cons, process_district_def]
     norm_num [parse_pvi, hopen, simulate_race_eq, simLoop, run_forecast,
       forecast_district, MODEL_COEFFICIENTS, h100, h0, get_race_rating])

/-- C9: open-seat invariant — a district listed in the retirements
table yields a row with is_open_seat true and WAR exactly 0 both as
reported and as used by the model (regardless of the WAR data), while
an unlisted district uses the looked-up WAR value, default 0 when
absent, unchanged. -/
theorem open_seat_war_forced (row : DistrictInput) (wd : String → Option ℚ) (gb : ℚ)
    (errors : List ℚ) (pvi : ℚ) (hpvi : parse_pvi row.pvi_2025 = some pvi) :
    (row.dist ∈ RETIREMENTS_2026.map (fun e => e.1) →
      (process_district row wd gb errors).map
          (fun r => (r.is_open_seat, r.war, r.predicted_margin)) =
        (process_district row wd gb errors).map
          (fun _ => (true, 0, round2 (forecast_district pvi 0 gb)))) ∧
    (row.dist ∉ RETIREMENTS_2026.map (fun e => e.1) →
      (process_district row wd gb errors).map (fun r => (r.is_open_seat, r.war)) =
        (process_district row wd gb errors).map
          (fun _ => (false, (wd row.dist).getD 0))) := by
  constructor
  · intro hmem
    have hopen : is_open_seat_2026 row.dist = true := (is_open_seat_2026_iff _).mpr hmem
    rw [process_district_def, hpvi]
    simp only [Option.some_bind]
    rw [hopen]
    rcases hs : simulate_race (forecast_district pvi (if true = true then 0
        else (wd row.dist).getD 0) gb) errors with _ | sim <;> simp [hs]
  · intro hmem
    have hopen : is_open_seat_2026 row.dist = false := by
      cases hob : is_open_seat_2026 row.dist
      · rfl
      · exact absurd ((is_open_seat_2026_iff _).mp hob) hmem
    rw [process_district_def, hpvi]
    simp only [Option.some_bind]
    rw [hopen]
    rcases hs : simulate_race (forecast_district pvi (if false = true then 0
        else (wd row.dist).getD 0) gb) errors with _ | sim <;> simp [hs]

/-- C9 witness: the open-seat clause applied to NY-21 (listed in the
retirements table) with a WAR table that does carry a value for it. -/
theorem open_seat_war_forced_witness :
    (process_district
        { dist := "NY-21", incumbent_2025 := "Elise Stefanik", party := "R",
          pvi_2025 := none }
        (fun _ => some 3) 0 [1]).map (fun r => (r.is_open_seat, r.war, r.predicted_margin)) =
      (process_district
        { dist := "NY-21", incumbent_2025 := "Elise Stefanik", party := "R",
          pvi_2025 := none }
        (fun _ => some 3) 0 [1]).map (fun _ => (true, 0, round2 (forecast_district 0 0 0))) :=
  (open_seat_war_forced
    { dist := "NY-21", incumbent_2025 := "Elise Stefanik", party := "R", pvi_2025 := none }
    (fun _ => some 3) 0 [1] 0 rfl).1 (by decide)

/-- C10: the Race Simulator returns normally for every trial count
N ≥ 1, but the positive-trial-count precondition is never validated:
with N = 0 the loop runs zero times and the win-probability division
by the trial count raises ZeroDivisionError (modelled as none) instead
of returning a result. -/
theorem simulate_race_zero_trials :
    (∀ (pm : ℚ) (errors : List ℚ), errors ≠ [] →
      (simulate_race pm errors).isSome = true) ∧
    (∀ pm : ℚ, simulate_race pm [] = none) := by
  constructor
  · intro pm errors h
    rw [simulate_race_eq pm errors h]
    rfl
  · intro pm
    rfl

/-- C10 witness: a one-trial simulation returns normally. -/
theorem simulate_race_zero_trials_witness : (simulate_race 0 [1]).isSome = true :=
  simulate_race_zero_trials.1 0 [1] (by simp)

end Forecast
